import Mathlib

/-!
# Circulum recurring-payment engine — verification development

Shallow embedding of the Circulum scheduler/settlement core:

* `cron/src/services/payment-processor.ts` — `PaymentProcessor` (due-payment
  discovery, per-subscription retry loop, grace/cancellation escalation) and
  `WebhookService` (event fan-out, endpoint health, HMAC signatures);
* `cron/src/scheduler.ts` — `PaymentScheduler` (cron tick handling).

Conventions of the embedding:

* Times are unix seconds as `Nat`.  Each operation takes the `now` it would
  read from `Date.now()` as an explicit parameter.
* The mongoose model files (`@core/models/subscription`, `@core/models/plan`)
  are not part of the sources; the `Subscription` and `Plan` structures below
  carry exactly the fields the processor reads and writes, typed as in the
  repository's data-model documentation.
* The Solana settlement call (`executePayment`) is an external collaborator;
  it is modelled by an oracle `gateway : Nat → Option String` giving the
  outcome of each numbered attempt (`some txId` = confirmed transfer,
  `none` = any thrown error — decline, timeout, network).
* Thrown JS exceptions that the function itself catches are modelled by the
  control flow of the translation; exceptions that escape are `Except`.
* A `SettleOutcome` records, besides the `PaymentResult` fields of the
  source, the observable effects of the call: the subscription row as stored
  afterwards, how many gateway calls were made, which waits were inserted
  between attempts, and which webhook events were queued.  The processor in
  `payment-processor.ts` never calls the webhook service, so the translation
  constructs an empty event list on every path.
-/

namespace Circulum

/-- Subscription status, per the repository data model
(`status ∈ {active, paused, cancelled, expired}`). -/
inductive SubStatus where
  | active
  | paused
  | cancelled
  | expired
deriving DecidableEq, Repr

/-- The subscription row as read and written by the payment processor
(the mongoose schema file is not in the sources; fields are those used in
`payment-processor.ts`). -/
structure Subscription where
  id : Nat
  planId : Nat
  subscriber : Nat
  creator : Nat
  status : SubStatus
  nextPayment : Nat
  lastPayment : Option Nat
  failedPayments : Nat
  totalPayments : Nat
deriving DecidableEq, Repr

/-- The plan fields used by the payment processor. -/
structure Plan where
  planId : Nat
  isActive : Bool
  amount : Nat
  intervalSeconds : Nat
deriving DecidableEq, Repr

/-- `PaymentProcessorConfig` from `payment-processor.ts` (the parts that
affect control flow; `connection`/`program` are external handles). -/
structure PaymentProcessorConfig where
  batchSize : Nat
  retryAttempts : Nat
  retryDelay : Nat
  gracePeriod : Nat
deriving DecidableEq, Repr

/-- `Plan.findById(subscription.planId)`. -/
def findPlan (plans : List Plan) (pid : Nat) : Option Plan :=
  plans.find? fun p => p.planId == pid

/-- Observable result of one `processSubscriptionPayment` call: the
`PaymentResult` of the source plus the stored row, gateway-call count,
inserted waits, and queued webhook event types. -/
structure SettleOutcome where
  success : Bool
  error : Option String
  sub : Subscription
  gatewayCalls : Nat
  delays : List Nat
  events : List String
deriving DecidableEq, Repr

/-- The retry loop body of `processSubscriptionPayment` (lines 104-126):
iterate over the attempt numbers `1..retryAttempts`; on a successful gateway
call stop; on failure wait `retryDelay` (a constant) if an attempt remains.
Returns (settlement result, number of gateway calls made, waits inserted). -/
def runAttempts (retryDelay : Nat) (gateway : Nat → Option String) :
    List Nat → Option String × Nat × List Nat
  | [] => (none, 0, [])
  | a :: rest =>
    match gateway a with
    | some tx => (some tx, 1, [])
    | none =>
      match rest with
      | [] => (none, 1, [])
      | b :: t =>
        let r := runAttempts retryDelay gateway (b :: t)
        (r.1, r.2.1 + 1, retryDelay :: r.2.2)

/-- `updateSubscriptionAfterPayment` (lines 191-204): on success set
`lastPayment = now`, `nextPayment = now + plan.intervalSeconds`,
`failedPayments = 0` and increment `totalPayments`. -/
def updateSubscriptionAfterPayment (now : Nat) (plan : Plan) (sub : Subscription) :
    Subscription :=
  { sub with
    lastPayment := some now
    nextPayment := now + plan.intervalSeconds
    failedPayments := 0
    totalPayments := sub.totalPayments + 1 }

/-- `handlePaymentFailure` (lines 209-226): increment `failedPayments`, set
`nextPayment = now + gracePeriod`, and additionally set `status = cancelled`
when the incremented count reaches the hard-coded threshold 3.  Note that
`updateData` always contains the advanced `nextPayment`, also in the
cancellation case. -/
def handlePaymentFailure (gracePeriod now : Nat) (sub : Subscription) : Subscription :=
  let failedPayments := sub.failedPayments + 1
  let updated :=
    { sub with failedPayments := failedPayments, nextPayment := now + gracePeriod }
  if 3 ≤ failedPayments then { updated with status := SubStatus.cancelled } else updated

/-- `processSubscriptionPayment` (lines 90-144).  A missing or inactive plan
throws; the throw is caught by the function's own outer catch, which returns
a failure result without touching the store and without any gateway call.
Otherwise the retry loop runs; success writes
`updateSubscriptionAfterPayment`, exhaustion writes `handlePaymentFailure`.
No path queues a webhook event (the cron processor has no webhook client). -/
def processSubscriptionPayment (cfg : PaymentProcessorConfig) (plans : List Plan)
    (gateway : Nat → Option String) (now : Nat) (sub : Subscription) : SettleOutcome :=
  match findPlan plans sub.planId with
  | none =>
    { success := false
      error := some ("Plan " ++ toString sub.planId ++ " not found")
      sub := sub
      gatewayCalls := 0
      delays := []
      events := [] }
  | some plan =>
    if plan.isActive then
      let r := runAttempts cfg.retryDelay gateway (List.range' 1 cfg.retryAttempts)
      match r.1 with
      | some _ =>
        { success := true
          error := none
          sub := updateSubscriptionAfterPayment now plan sub
          gatewayCalls := r.2.1
          delays := r.2.2
          events := [] }
      | none =>
        { success := false
          error := some "Payment failed after all retry attempts"
          sub := handlePaymentFailure cfg.gracePeriod now sub
          gatewayCalls := r.2.1
          delays := r.2.2
          events := [] }
    else
      { success := false
        error := some ("Plan " ++ toString sub.planId ++ " is not active")
        sub := sub
        gatewayCalls := 0
        delays := []
        events := [] }

/-- The due filter of the discovery query (lines 49-52):
`status = active ∧ nextPayment ≤ now`. -/
def isDue (now : Nat) (s : Subscription) : Bool :=
  s.status == SubStatus.active && s.nextPayment ≤ now

/-- The discovery query of `processDuePayments`:
`find({status: active, nextPayment ≤ now}).limit(batchSize)` — filter the
store, then keep at most `batchSize` rows. -/
def findDueSubscriptions (batchSize now : Nat) (store : List Subscription) :
    List Subscription :=
  (store.filter (isDue now)).take batchSize

/-- `Subscription.findByIdAndUpdate`: replace the row with the matching id. -/
def applyUpdate (store : List Subscription) (s : Subscription) : List Subscription :=
  store.map fun t => if t.id == s.id then s else t

/-- Result of one `processDuePayments` cycle: final store and per-subscription
outcome list. -/
structure CycleResult where
  store : List Subscription
  outcomes : List SettleOutcome
deriving DecidableEq, Repr

/-- `processDuePayments` (lines 43-85): discover due subscriptions at cycle
start, then settle each in order, writing each outcome's row back.  The
gateway oracle is indexed per subscription id and per attempt number. -/
def processDuePayments (cfg : PaymentProcessorConfig) (plans : List Plan)
    (gateway : Nat → Nat → Option String) (now : Nat) (store : List Subscription) :
    CycleResult :=
  let due := findDueSubscriptions cfg.batchSize now store
  due.foldl
    (fun acc s =>
      let o := processSubscriptionPayment cfg plans (gateway s.id) now s
      { store := applyUpdate acc.store o.sub, outcomes := acc.outcomes ++ [o] })
    { store := store, outcomes := [] }

/-!
## Scheduler (`cron/src/scheduler.ts`)

Trace-level model of `PaymentScheduler`.  Concurrency is captured by
counting in-flight `processPayments` invocations: a tick event begins an
invocation, a completion event ends one.  The translation of each event
handler follows the source line by line:

* the cron callback (lines 73-75) invokes `processPayments()`
  unconditionally whenever the job is scheduled;
* `processPayments` (lines 99-103) returns early only when the processor is
  not initialized — it consults no in-flight or running flag;
* `isRunning` (line 15) is written by `start`/`stop` only and read only by
  `start` (line 58) to refuse a second `start`.
-/

/-- Scheduler state: `initialized` = `paymentProcessor ≠ null`,
`isRunning` and `scheduled` (= `cronJob` active) as in the source, and
`inFlight` = number of `processPayments` invocations begun and not yet
completed. -/
structure SchedulerState where
  initialized : Bool
  isRunning : Bool
  scheduled : Bool
  inFlight : Nat
deriving DecidableEq, Repr

/-- Beginning of a `processPayments` invocation (lines 99-103): returns
early when the processor is missing, otherwise a cycle is now in flight. -/
def beginProcessPayments (s : SchedulerState) : SchedulerState :=
  if s.initialized then { s with inFlight := s.inFlight + 1 } else s

/-- A cron tick firing (lines 73-78): when the job is scheduled the callback
runs and calls `processPayments` with no overlap check. -/
def tickFires (s : SchedulerState) : SchedulerState :=
  if s.scheduled then beginProcessPayments s else s

/-- Completion of an in-flight `processPayments` invocation (its body catches
every exception, so each begun invocation completes). -/
def cycleCompletes (s : SchedulerState) : SchedulerState :=
  { s with inFlight := s.inFlight - 1 }

/-- `start()` (lines 53-87): throws when not initialized, returns when
already running or when disabled by configuration; otherwise schedules the
cron job, sets `isRunning`, and begins one eager cycle. -/
def startScheduler (enabled : Bool) (s : SchedulerState) : SchedulerState :=
  if s.initialized = false then s
  else if s.isRunning then s
  else if enabled = false then s
  else beginProcessPayments { s with scheduled := true, isRunning := true }

/-- `stop()` (lines 89-97): cancels the timer and clears `isRunning`; any
in-flight cycle is untouched. -/
def stopScheduler (s : SchedulerState) : SchedulerState :=
  { s with scheduled := false, isRunning := false }

/-!
## Webhook service (`WebhookService` in `payment-processor.ts`)

The in-memory webhook map is a list of `Webhook` rows keyed by `id`.
ISO-timestamp bookkeeping (`createdAt`, `lastTriggered`) does not affect
any claim and is omitted.  The HTTP POST of `sendWebhook` is external; its
outcome (`response.ok`, with a thrown error on non-2xx or network failure)
is a `Bool` parameter.
-/

/-- A registered webhook endpoint (lines 661-670). -/
structure Webhook where
  id : Nat
  url : String
  events : List String
  secret : String
  active : Bool
  failureCount : Nat
deriving DecidableEq, Repr

/-- `this.webhooks.get(id)` over the list representation. -/
def getWebhook (ws : List Webhook) (id : Nat) : Option Webhook :=
  ws.find? fun w => w.id == id

/-- `updateWebhook(id, updates)` (lines 717-728) restricted to the row with
the given id, with the partial update given as a row transformer. -/
def updateById (ws : List Webhook) (id : Nat) (f : Webhook → Webhook) : List Webhook :=
  ws.map fun w => if w.id == id then f w else w

/-- `sendWebhook` (lines 819-868), state effect on the webhook map.
`ok` is the transport outcome.  On success the failure count is reset to 0
(explicitly when it was positive, by no-op otherwise); on failure it is
incremented from the snapshot `w`, and the endpoint is disabled when the
incremented count reaches 5. -/
def sendWebhook (ws : List Webhook) (w : Webhook) (ok : Bool) : List Webhook :=
  if ok then
    if 0 < w.failureCount then
      updateById ws w.id fun v => { v with failureCount := 0 }
    else
      ws
  else
    let newFailureCount := w.failureCount + 1
    let ws1 := updateById ws w.id fun v => { v with failureCount := newFailureCount }
    if 5 ≤ newFailureCount then
      updateById ws1 w.id fun v => { v with active := false }
    else
      ws1

/-- The endpoint filter of `processEvent` (lines 797-799): active endpoints
subscribed to the event's type. -/
def relevantWebhooks (ws : List Webhook) (etype : String) : List Webhook :=
  ws.filter fun w => w.active && w.events.contains etype

/-- `processEvent` (lines 796-814): fan the event out to every relevant
endpoint (the `Promise.allSettled` fan-out touches disjoint rows, folded
here in list order), returning the new map and the list of endpoints against
which a delivery was attempted. -/
def processEvent (ws : List Webhook) (etype : String) (ok : Nat → Bool) :
    List Webhook × List Webhook :=
  let relevant := relevantWebhooks ws etype
  (relevant.foldl (fun acc w => sendWebhook acc w (ok w.id)) ws, relevant)

/-!
## Signatures (`generateSignature` / `verifySignature`)

Bytes are `Nat`s below 256.  `crypto.createHmac('sha256', secret)
.update(payload).digest('hex')` is an external primitive, abstracted as an
oracle `hmac : String → String → List Nat` from (secret, payload) to digest
bytes; `generateSignature` hex-encodes its output, exactly as `digest('hex')`
does.  `Buffer.from(s, 'hex')` decodes hex pairs and stops at the first
character that is not a hex digit or at an unpaired trailing character.
`crypto.timingSafeEqual` throws when the two buffers differ in length and
otherwise returns byte equality.
-/

/-- Value of one hex digit, upper or lower case (Node accepts both). -/
def hexDigitVal (c : Char) : Option Nat :=
  if '0' ≤ c ∧ c ≤ '9' then some (c.toNat - '0'.toNat)
  else if 'a' ≤ c ∧ c ≤ 'f' then some (c.toNat - 'a'.toNat + 10)
  else if 'A' ≤ c ∧ c ≤ 'F' then some (c.toNat - 'A'.toNat + 10)
  else none

/-- Lower-case hex digit for a value below 16, as `digest('hex')` emits. -/
def hexDigitChar (n : Nat) : Char :=
  "0123456789abcdef".toList.getD n '0'

/-- `Buffer.from(·, 'hex')` on a character list: decode two-digit pairs,
stopping at the first invalid or unpaired character. -/
def hexDecodeList : List Char → List Nat
  | c1 :: c2 :: rest =>
    match hexDigitVal c1, hexDigitVal c2 with
    | some h, some l => (16 * h + l) :: hexDecodeList rest
    | _, _ => []
  | _ => []

/-- `Buffer.from(s, 'hex')`. -/
def hexDecode (s : String) : List Nat :=
  hexDecodeList s.toList

/-- Hex encoding of a byte list, as `digest('hex')` produces. -/
def hexEncodeList : List Nat → List Char
  | [] => []
  | b :: rest => hexDigitChar (b / 16) :: hexDigitChar (b % 16) :: hexEncodeList rest

/-- Hex encoding of a byte list as a string. -/
def hexEncode (bs : List Nat) : String :=
  String.mk (hexEncodeList bs)

/-- `crypto.timingSafeEqual(a, b)`: throws on a length mismatch, otherwise
compares the bytes. -/
def timingSafeEqual (a b : List Nat) : Except String Bool :=
  if a.length = b.length then Except.ok (a == b)
  else Except.error "Input buffers must have the same byte length"

/-- `generateSignature(payload, secret)` (lines 873-875): hex HMAC-SHA256 of
the payload under the secret. -/
def generateSignature (hmac : String → String → List Nat) (payload secret : String) :
    String :=
  hexEncode (hmac secret payload)

/-- `verifySignature(payload, signature, secret)` (lines 880-886):
recompute the expected signature and compare the hex-decoded buffers with
`timingSafeEqual`. -/
def verifySignature (hmac : String → String → List Nat)
    (payload signature secret : String) : Except String Bool :=
  timingSafeEqual (hexDecode signature)
    (hexDecode (generateSignature hmac payload secret))

/-!
## Concrete test fixtures

Small concrete configurations, plans, subscriptions and webhooks used to
evaluate the embedded code on explicit inputs.  `defaultCfg` carries the
documented defaults: batch size 50, 3 retry attempts, 30000 ms retry delay,
3600 s grace period.
-/

/-- The documented default processor configuration. -/
def defaultCfg : PaymentProcessorConfig :=
  { batchSize := 50, retryAttempts := 3, retryDelay := 30000, gracePeriod := 3600 }

/-- An active plan with the 30-day interval of the repository's tests. -/
def activePlan : Plan :=
  { planId := 1, isActive := true, amount := 1000000, intervalSeconds := 2592000 }

/-- The same plan, deactivated. -/
def inactivePlan : Plan :=
  { planId := 1, isActive := false, amount := 1000000, intervalSeconds := 2592000 }

/-- A due subscription on plan 1 with no failures yet. -/
def dueSub : Subscription :=
  { id := 7, planId := 1, subscriber := 2, creator := 3, status := SubStatus.active,
    nextPayment := 4, lastPayment := none, failedPayments := 0, totalPayments := 5 }

/-- A due subscription on plan 1 that has already failed twice. -/
def twiceFailedSub : Subscription :=
  { id := 8, planId := 1, subscriber := 2, creator := 3, status := SubStatus.active,
    nextPayment := 0, lastPayment := some 1, failedPayments := 2, totalPayments := 9 }

/-- A subscription on plan 1 that only becomes due at time 100. -/
def laterDueSub : Subscription :=
  { id := 0, planId := 1, subscriber := 4, creator := 3, status := SubStatus.active,
    nextPayment := 100, lastPayment := none, failedPayments := 0, totalPayments := 0 }

/-- A second due subscription on plan 1, stored after `dueSub`. -/
def secondDueSub : Subscription :=
  { id := 9, planId := 1, subscriber := 5, creator := 3, status := SubStatus.active,
    nextPayment := 4, lastPayment := none, failedPayments := 0, totalPayments := 0 }

/-- A configuration whose batch limit is smaller than the store below. -/
def smallBatchCfg : PaymentProcessorConfig :=
  { defaultCfg with batchSize := 2 }

/-- A store of three subscriptions of which two are due at time 10 and all
three at time 100. -/
def threeSubStore : List Subscription :=
  [laterDueSub, dueSub, secondDueSub]

/-- A scheduler that is initialized, started, scheduled, and has one payment
cycle in flight. -/
def busySchedulerState : SchedulerState :=
  { initialized := true, isRunning := true, scheduled := true, inFlight := 1 }

/-- A webhook endpoint with four consecutive failures, subscribed to
`payment.processed`. -/
def fourFailuresHook : Webhook :=
  { id := 1, url := "https://example.com/hook", events := ["payment.processed"],
    secret := "shh", active := true, failureCount := 4 }

/-- A webhook map containing only `fourFailuresHook`. -/
def oneHookMap : List Webhook :=
  [fourFailuresHook]

/-- A concrete stand-in for the external HMAC-SHA256 primitive used to
evaluate the signature operations: an arbitrary fixed two-byte digest. -/
def tinyHmac : String → String → List Nat :=
  fun _ _ => [171, 205]

/-- A concrete stand-in digest function with the real 32-byte digest
length. -/
def fullHmac : String → String → List Nat :=
  fun _ _ => List.range 32

/-!
## Helper lemmas
-/

/-- With an always-failing gateway the retry loop makes one call per attempt
number and inserts a constant wait between consecutive attempts. -/
theorem runAttempts_allFail (d : Nat) (g : Nat → Option String)
    (hg : ∀ n, g n = none) (l : List Nat) :
    runAttempts d g l = (none, l.length, List.replicate (l.length - 1) d) := by
  induction l with
  | nil => simp [runAttempts]
  | cons a rest ih =>
    cases rest with
    | nil => simp [runAttempts, hg]
    | cons b t => simp [runAttempts, hg, ih, List.replicate_succ]

/-- The retry loop never makes more gateway calls than there are attempt
numbers. -/
theorem runAttempts_calls_le (d : Nat) (g : Nat → Option String) (l : List Nat) :
    (runAttempts d g l).2.1 ≤ l.length := by
  induction l with
  | nil => simp [runAttempts]
  | cons a rest ih =>
    cases rest with
    | nil =>
      cases hg : g a <;> simp [runAttempts, hg]
    | cons b t =>
      cases hg : g a with
      | none =>
        simp only [runAttempts, hg]
        simpa using ih
      | some tx => simp [runAttempts, hg]

/-- Every wait inserted by the retry loop equals the configured constant
`retryDelay`. -/
theorem runAttempts_delays_eq (d : Nat) (g : Nat → Option String) (l : List Nat) :
    ∀ x ∈ (runAttempts d g l).2.2, x = d := by
  induction l with
  | nil => simp [runAttempts]
  | cons a rest ih =>
    cases rest with
    | nil =>
      cases hg : g a <;> simp [runAttempts, hg]
    | cons b t =>
      cases hg : g a <;> simp [runAttempts, hg]
      exact ih

/-- `handlePaymentFailure` in closed form. -/
theorem handlePaymentFailure_eq (g now : Nat) (sub : Subscription) :
    handlePaymentFailure g now sub =
      if 3 ≤ sub.failedPayments + 1 then
        { sub with
          failedPayments := sub.failedPayments + 1
          nextPayment := now + g
          status := SubStatus.cancelled }
      else
        { sub with
          failedPayments := sub.failedPayments + 1
          nextPayment := now + g } := by
  by_cases h : 3 ≤ sub.failedPayments + 1 <;> simp [handlePaymentFailure, h]

/-- `handlePaymentFailure` always advances `nextPayment` to the end of the
grace period, also when it cancels. -/
theorem handlePaymentFailure_nextPayment (g now : Nat) (sub : Subscription) :
    (handlePaymentFailure g now sub).nextPayment = now + g := by
  rw [handlePaymentFailure_eq]
  split <;> rfl

/-- When the plan lookup yields nothing active, `processSubscriptionPayment`
returns a failure outcome with no gateway call, no wait, no event, and the
subscription row untouched. -/
theorem processSubscriptionPayment_planBad (cfg : PaymentProcessorConfig)
    (plans : List Plan) (gateway : Nat → Option String) (now : Nat)
    (sub : Subscription)
    (h : ∀ p, findPlan plans sub.planId = some p → p.isActive = false) :
    (processSubscriptionPayment cfg plans gateway now sub).success = false ∧
    (processSubscriptionPayment cfg plans gateway now sub).sub = sub ∧
    (processSubscriptionPayment cfg plans gateway now sub).gatewayCalls = 0 ∧
    (processSubscriptionPayment cfg plans gateway now sub).delays = [] ∧
    (processSubscriptionPayment cfg plans gateway now sub).events = [] := by
  cases hfp : findPlan plans sub.planId with
  | none => simp [processSubscriptionPayment, hfp]
  | some p =>
    have hp := h p hfp
    simp [processSubscriptionPayment, hfp, hp]

/-- Looking an id up after an id-preserving targeted update yields the
updated row. -/
theorem getWebhook_updateById (ws : List Webhook) (id : Nat) (f : Webhook → Webhook)
    (hid : ∀ v, (f v).id = v.id) :
    getWebhook (updateById ws id f) id = (getWebhook ws id).map f := by
  induction ws with
  | nil => rfl
  | cons w t ih =>
    by_cases hw : w.id = id
    · simp [getWebhook, updateById, List.find?, hw, hid]
    · simp only [getWebhook, updateById, List.map] at ih ⊢
      rw [if_neg (by simpa using hw)]
      rw [List.find?_cons_of_neg _ (by simpa using hw),
        List.find?_cons_of_neg _ (by simpa using hw)]
      exact ih

/-- A member sitting before position `n` of a list is in its `n`-prefix. -/
theorem mem_take_of_indexOf_lt {α : Type} [DecidableEq α] {l : List α} {a : α}
    {n : Nat} (ha : a ∈ l) (h : l.indexOf a < n) : a ∈ l.take n := by
  induction l generalizing n with
  | nil => cases ha
  | cons b t ih =>
    cases n with
    | zero => omega
    | succ m =>
      by_cases hb : b = a
      · subst hb
        simp [List.take]
      · have hat : a ∈ t := by
          rcases List.mem_cons.mp ha with h' | h'
          · exact absurd h'.symm hb
          · exact h'
        have hidx : t.indexOf a < m := by
          have : (b :: t).indexOf a = t.indexOf a + 1 := by
            simp [List.indexOf_cons, hb]
          omega
        simp only [List.take, List.mem_cons]
        exact Or.inr (ih hat hidx)

/-- Decoding the hex digit emitted for a value below 16 recovers the
value. -/
theorem hexDigitVal_hexDigitChar : ∀ n, n < 16 → hexDigitVal (hexDigitChar n) = some n := by
  decide

/-- Hex decoding inverts hex encoding on byte lists. -/
theorem hexDecodeList_hexEncodeList (bs : List Nat) (hb : ∀ b ∈ bs, b < 256) :
    hexDecodeList (hexEncodeList bs) = bs := by
  induction bs with
  | nil => rfl
  | cons b t ih =>
    have hb0 : b < 256 := hb b (List.mem_cons_self b t)
    have hdiv : b / 16 < 16 := by omega
    have hmod : b % 16 < 16 := Nat.mod_lt _ (by norm_num)
    simp only [hexEncodeList, hexDecodeList, hexDigitVal_hexDigitChar _ hdiv,
      hexDigitVal_hexDigitChar _ hmod]
    rw [ih fun x hx => hb x (List.mem_cons_of_mem _ hx)]
    have : 16 * (b / 16) + b % 16 = b := by omega
    rw [this]

/-- Hex-decoding a generated signature recovers the digest bytes. -/
theorem hexDecode_generateSignature (hmac : String → String → List Nat)
    (payload secret : String) (hb : ∀ b ∈ hmac secret payload, b < 256) :
    hexDecode (generateSignature hmac payload secret) = hmac secret payload := by
  show hexDecodeList (hexEncodeList (hmac secret payload)) = hmac secret payload
  exact hexDecodeList_hexEncodeList _ hb

/-!
## Claims
-/

/-- Claim C1 (counterexample): in the scheduler state with one cycle in
flight, a further tick is not a no-op — it begins a second concurrent
`processPayments` invocation, because the cron callback performs no overlap
check. -/
theorem C1_counterexample :
    (tickFires busySchedulerState).inFlight = 2 ∧
      tickFires busySchedulerState ≠ busySchedulerState := by
  decide

/-- Claim C1 (amended): the scheduler has no overlap guard.  Whenever the
cron job is scheduled and the processor is initialized, a tick begins
another `processPayments` invocation regardless of `isRunning` and of how
many cycles are already in flight, so concurrent cycles can overlap. -/
theorem C1_tick_always_starts_cycle (s : SchedulerState)
    (hsch : s.scheduled = true) (hinit : s.initialized = true) :
    tickFires s = { s with inFlight := s.inFlight + 1 } := by
  simp [tickFires, beginProcessPayments, hsch, hinit]

/-- Witness for `C1_tick_always_starts_cycle` at the busy scheduler state. -/
theorem C1_tick_always_starts_cycle_witness :
    busySchedulerState.scheduled = true ∧ busySchedulerState.initialized = true ∧
      tickFires busySchedulerState = { busySchedulerState with inFlight := 2 } :=
  ⟨rfl, rfl, C1_tick_always_starts_cycle busySchedulerState rfl rfl⟩

/-- Claim C2 (counterexample): a due subscription whose plan is inactive is
returned by the discovery query, yet after the cycle it is neither
cancelled nor has its `nextPayment` moved past the cycle start — the
processor's catch returns a failure result without writing anything. -/
theorem C2_counterexample :
    dueSub ∈ findDueSubscriptions defaultCfg.batchSize 10 [dueSub] ∧
    (processDuePayments defaultCfg [inactivePlan] (fun _ _ => none) 10 [dueSub]).store
      = [dueSub] ∧
    ¬ (dueSub.status = SubStatus.cancelled ∨ 10 < dueSub.nextPayment) := by
  decide

/-- Claim C2 (amended): the cycle invariant holds for every processed
subscription whose plan exists and is active: after
`processSubscriptionPayment`, either the status is cancelled or
`nextPayment` lies strictly after the cycle's time (given a positive
interval and grace period).  A subscription whose plan is missing or
inactive is instead left untouched (see `C2_counterexample`). -/
theorem C2_cycle_invariant (cfg : PaymentProcessorConfig) (plans : List Plan)
    (gateway : Nat → Option String) (now : Nat) (sub : Subscription) (p : Plan)
    (hfp : findPlan plans sub.planId = some p)
    (hact : p.isActive = true)
    (hint : 1 ≤ p.intervalSeconds)
    (hgrace : 1 ≤ cfg.gracePeriod) :
    (processSubscriptionPayment cfg plans gateway now sub).sub.status
        = SubStatus.cancelled ∨
      now < (processSubscriptionPayment cfg plans gateway now sub).sub.nextPayment := by
  refine Or.inr ?_
  cases hr : (runAttempts cfg.retryDelay gateway (List.range' 1 cfg.retryAttempts)).1 with
  | none =>
    simp only [processSubscriptionPayment, hfp, hact, hr, if_true]
    rw [handlePaymentFailure_nextPayment]
    omega
  | some tx =>
    simp only [processSubscriptionPayment, hfp, hact, hr, if_true,
      updateSubscriptionAfterPayment]
    omega

/-- Witness for `C2_cycle_invariant`: the twice-failed subscription against
the active plan with an always-failing gateway at time 50. -/
theorem C2_cycle_invariant_witness :
    findPlan [activePlan] twiceFailedSub.planId = some activePlan ∧
    ((processSubscriptionPayment defaultCfg [activePlan] (fun _ => none) 50
        twiceFailedSub).sub.status = SubStatus.cancelled ∨
      50 < (processSubscriptionPayment defaultCfg [activePlan] (fun _ => none) 50
        twiceFailedSub).sub.nextPayment) :=
  ⟨by decide,
    C2_cycle_invariant defaultCfg [activePlan] (fun _ => none) 50 twiceFailedSub
      activePlan (by decide) (by decide) (by decide) (by decide)⟩

/-- Claim C3 (counterexample): the twice-failed subscription, failing all
three gateway attempts at time 50, is cancelled — but its `nextPayment` is
still advanced to the end of the grace period (50 + 3600), and no
`subscription.cancelled` event is queued, contrary to the claim. -/
theorem C3_counterexample :
    (processSubscriptionPayment defaultCfg [activePlan] (fun _ => none) 50
        twiceFailedSub).sub.status = SubStatus.cancelled ∧
    twiceFailedSub.nextPayment = 0 ∧
    (processSubscriptionPayment defaultCfg [activePlan] (fun _ => none) 50
        twiceFailedSub).sub.nextPayment = 3650 ∧
    "subscription.cancelled" ∉
      (processSubscriptionPayment defaultCfg [activePlan] (fun _ => none) 50
        twiceFailedSub).events := by
  decide

/-- Claim C3 (amended): when every gateway attempt fails, the processor
increments `failedPayments` and sets `nextPayment = now + gracePeriod` in
both branches; if the incremented count reaches the threshold 3 the status
additionally becomes cancelled, and otherwise the status is unchanged.  No
event is queued in either branch (the cron processor emits no webhook
events). -/
theorem C3_failure_escalation (cfg : PaymentProcessorConfig) (plans : List Plan)
    (gateway : Nat → Option String) (now : Nat) (sub : Subscription) (p : Plan)
    (hfp : findPlan plans sub.planId = some p)
    (hact : p.isActive = true)
    (hfail : ∀ n, gateway n = none) :
    (3 ≤ sub.failedPayments + 1 →
      (processSubscriptionPayment cfg plans gateway now sub).sub =
        { sub with
          failedPayments := sub.failedPayments + 1
          nextPayment := now + cfg.gracePeriod
          status := SubStatus.cancelled } ∧
      (processSubscriptionPayment cfg plans gateway now sub).events = []) ∧
    (sub.failedPayments + 1 < 3 →
      (processSubscriptionPayment cfg plans gateway now sub).sub =
        { sub with
          failedPayments := sub.failedPayments + 1
          nextPayment := now + cfg.gracePeriod } ∧
      (processSubscriptionPayment cfg plans gateway now sub).events = []) := by
  have hr := runAttempts_allFail cfg.retryDelay gateway hfail (List.range' 1 cfg.retryAttempts)
  constructor
  · intro h3
    simp only [processSubscriptionPayment, hfp, hact, hr, if_true,
      handlePaymentFailure_eq, if_pos h3]
    exact ⟨trivial, trivial⟩
  · intro h3
    simp only [processSubscriptionPayment, hfp, hact, hr, if_true,
      handlePaymentFailure_eq, if_neg (Nat.not_le.mpr h3)]
    exact ⟨trivial, trivial⟩

/-- Witness for `C3_failure_escalation`: the cancellation branch at the
twice-failed subscription. -/
theorem C3_failure_escalation_witness :
    3 ≤ twiceFailedSub.failedPayments + 1 ∧
    ((processSubscriptionPayment defaultCfg [activePlan] (fun _ => none) 50
        twiceFailedSub).sub =
      { twiceFailedSub with
        failedPayments := 3
        nextPayment := 3650
        status := SubStatus.cancelled } ∧
      (processSubscriptionPayment defaultCfg [activePlan] (fun _ => none) 50
        twiceFailedSub).events = []) :=
  ⟨by decide,
    (C3_failure_escalation defaultCfg [activePlan] (fun _ => none) 50 twiceFailedSub
      activePlan (by decide) (by decide) fun _ => rfl).1 (by decide)⟩

/-- Claim C4 (counterexample): a successful settlement updates the stored
row as claimed, but no `payment.processed` event is queued — the cron
processor queues no events at all. -/
theorem C4_counterexample :
    (processSubscriptionPayment defaultCfg [activePlan] (fun _ => some "tx") 10
        dueSub).success = true ∧
    "payment.processed" ∉
      (processSubscriptionPayment defaultCfg [activePlan] (fun _ => some "tx") 10
        dueSub).events := by
  decide

/-- Claim C4 (amended): on a successful settlement the subscription is
updated with `lastPayment = now`, `nextPayment = now + plan.intervalSeconds`,
`failedPayments = 0` and `totalPayments` incremented by one — but no
`payment.processed` event is queued by the processor. -/
theorem C4_settled_updates (cfg : PaymentProcessorConfig) (plans : List Plan)
    (gateway : Nat → Option String) (now : Nat) (sub : Subscription) (p : Plan)
    (hfp : findPlan plans sub.planId = some p)
    (hs : (processSubscriptionPayment cfg plans gateway now sub).success = true) :
    (processSubscriptionPayment cfg plans gateway now sub).sub.lastPayment = some now ∧
    (processSubscriptionPayment cfg plans gateway now sub).sub.nextPayment
      = now + p.intervalSeconds ∧
    (processSubscriptionPayment cfg plans gateway now sub).sub.failedPayments = 0 ∧
    (processSubscriptionPayment cfg plans gateway now sub).sub.totalPayments
      = sub.totalPayments + 1 ∧
    (processSubscriptionPayment cfg plans gateway now sub).events = [] := by
  cases hact : p.isActive with
  | false => simp [processSubscriptionPayment, hfp, hact] at hs
  | true =>
    cases hr : (runAttempts cfg.retryDelay gateway (List.range' 1 cfg.retryAttempts)).1 with
    | none => simp [processSubscriptionPayment, hfp, hact, hr] at hs
    | some tx =>
      simp [processSubscriptionPayment, hfp, hact, hr, updateSubscriptionAfterPayment]

/-- Witness for `C4_settled_updates` at the due subscription with an
immediately-successful gateway. -/
theorem C4_settled_updates_witness :
    (processSubscriptionPayment defaultCfg [activePlan] (fun _ => some "tx") 10
        dueSub).success = true ∧
    ((processSubscriptionPayment defaultCfg [activePlan] (fun _ => some "tx") 10
        dueSub).sub.lastPayment = some 10 ∧
      (processSubscriptionPayment defaultCfg [activePlan] (fun _ => some "tx") 10
        dueSub).sub.nextPayment = 10 + activePlan.intervalSeconds ∧
      (processSubscriptionPayment defaultCfg [activePlan] (fun _ => some "tx") 10
        dueSub).sub.failedPayments = 0 ∧
      (processSubscriptionPayment defaultCfg [activePlan] (fun _ => some "tx") 10
        dueSub).sub.totalPayments = dueSub.totalPayments + 1 ∧
      (processSubscriptionPayment defaultCfg [activePlan] (fun _ => some "tx") 10
        dueSub).events = []) :=
  ⟨by decide,
    C4_settled_updates defaultCfg [activePlan] (fun _ => some "tx") 10 dueSub
      activePlan (by decide) (by decide)⟩

/-- Claim C5 (counterexample): with an inactive plan the settlement fails
immediately and no gateway call is made, but no `payment.failed` event with
reason `plan_inactive` is queued — the outcome's event list is empty and the
error is only recorded in the returned result. -/
theorem C5_counterexample :
    (processSubscriptionPayment defaultCfg [inactivePlan] (fun _ => none) 10
        dueSub).success = false ∧
    (processSubscriptionPayment defaultCfg [inactivePlan] (fun _ => none) 10
        dueSub).gatewayCalls = 0 ∧
    "payment.failed" ∉
      (processSubscriptionPayment defaultCfg [inactivePlan] (fun _ => none) 10
        dueSub).events := by
  decide

/-- Claim C5 (amended): a missing or inactive plan produces an immediate
failure outcome with no gateway call and no retry wait, and the processor
queues no event (the failure is only surfaced in the returned result). -/
theorem C5_plan_inactive_immediate (cfg : PaymentProcessorConfig) (plans : List Plan)
    (gateway : Nat → Option String) (now : Nat) (sub : Subscription)
    (h : ∀ p, findPlan plans sub.planId = some p → p.isActive = false) :
    (processSubscriptionPayment cfg plans gateway now sub).success = false ∧
    (processSubscriptionPayment cfg plans gateway now sub).gatewayCalls = 0 ∧
    (processSubscriptionPayment cfg plans gateway now sub).delays = [] ∧
    (processSubscriptionPayment cfg plans gateway now sub).events = [] := by
  obtain ⟨h1, h2, h3, h4, h5⟩ := processSubscriptionPayment_planBad cfg plans gateway now sub h
  exact ⟨h1, h3, h4, h5⟩

/-- Witness for `C5_plan_inactive_immediate` at the due subscription with
the inactive plan. -/
theorem C5_plan_inactive_immediate_witness :
    (∀ p, findPlan [inactivePlan] dueSub.planId = some p → p.isActive = false) ∧
    ((processSubscriptionPayment defaultCfg [inactivePlan] (fun _ => none) 10
        dueSub).success = false ∧
      (processSubscriptionPayment defaultCfg [inactivePlan] (fun _ => none) 10
        dueSub).gatewayCalls = 0 ∧
      (processSubscriptionPayment defaultCfg [inactivePlan] (fun _ => none) 10
        dueSub).delays = [] ∧
      (processSubscriptionPayment defaultCfg [inactivePlan] (fun _ => none) 10
        dueSub).events = []) :=
  ⟨by decide,
    C5_plan_inactive_immediate defaultCfg [inactivePlan] (fun _ => none) 10 dueSub
      (by decide)⟩

/-- Claim C6 (code evaluation): with the default configuration and a
gateway failing every attempt, the processor makes exactly three gateway
calls and waits the constant configured 30000 ms between consecutive
attempts — not the exponential 30000 × 2^n (60000 then 120000) that the
claim and `cron/README.md` describe. -/
theorem C6_constant_retry_delay :
    (processSubscriptionPayment defaultCfg [activePlan] (fun _ => none) 10
        dueSub).gatewayCalls = 3 ∧
    (processSubscriptionPayment defaultCfg [activePlan] (fun _ => none) 10
        dueSub).delays = [30000, 30000] ∧
    ([30000, 30000] : List Nat) ≠ [30000 * 2 ^ 1, 30000 * 2 ^ 2] := by
  decide

/-- Claim C7: webhook endpoint health.  (1) A delivery failure against an
endpoint that already has four consecutive failures stores it with the
incremented count and `active = false`; (2) the delivery loop only ever
attempts endpoints with `active = true`; (3) a successful delivery stores
the endpoint with `failureCount` exactly 0. -/
theorem C7_endpoint_health (ws : List Webhook) (w : Webhook) (etype : String)
    (ok : Nat → Bool) :
    (getWebhook ws w.id = some w → 4 ≤ w.failureCount →
      getWebhook (sendWebhook ws w false) w.id =
        some { w with failureCount := w.failureCount + 1, active := false }) ∧
    (∀ v ∈ (processEvent ws etype ok).2, v.active = true) ∧
    (getWebhook ws w.id = some w →
      getWebhook (sendWebhook ws w true) w.id = some { w with failureCount := 0 }) := by
  refine ⟨?_, ?_, ?_⟩
  · intro hw h4
    have h5 : 5 ≤ w.failureCount + 1 := Nat.succ_le_succ h4
    have hsw : sendWebhook ws w false =
        updateById
          (updateById ws w.id fun v => { v with failureCount := w.failureCount + 1 })
          w.id fun v => { v with active := false } := by
      simp [sendWebhook, h5]
    rw [hsw,
      getWebhook_updateById _ _ (fun v => { v with active := false }) fun v => rfl,
      getWebhook_updateById _ _
        (fun v => { v with failureCount := w.failureCount + 1 }) fun v => rfl,
      hw]
    rfl
  · intro v hv
    have hv' : v ∈ ws.filter fun u => u.active && u.events.contains etype := hv
    have hp := (List.mem_filter.mp hv').2
    simp only [Bool.and_eq_true] at hp
    exact hp.1
  · intro hw
    by_cases h0 : 0 < w.failureCount
    · have hsw : sendWebhook ws w true =
          updateById ws w.id fun v => { v with failureCount := 0 } := by
        simp [sendWebhook, h0]
      rw [hsw,
        getWebhook_updateById _ _ (fun v => { v with failureCount := 0 }) fun v => rfl,
        hw]
      rfl
    · have h00 : w.failureCount = 0 := Nat.eq_zero_of_not_pos h0
      have hsw : sendWebhook ws w true = ws := by simp [sendWebhook, h0]
      have hww : ({ w with failureCount := 0 } : Webhook) = w := by
        cases w
        simp_all
      rw [hsw, hw, hww]

/-- Witness for `C7_endpoint_health`: the endpoint with four consecutive
failures fails a fifth delivery and is stored disabled. -/
theorem C7_endpoint_health_witness :
    getWebhook oneHookMap fourFailuresHook.id = some fourFailuresHook ∧
    4 ≤ fourFailuresHook.failureCount ∧
    getWebhook (sendWebhook oneHookMap fourFailuresHook false) fourFailuresHook.id =
      some { fourFailuresHook with failureCount := 5, active := false } :=
  ⟨by decide, by decide,
    (C7_endpoint_health oneHookMap fourFailuresHook "payment.processed"
      fun _ => false).1 (by decide) (by decide)⟩

/-- Claim C8: signing then verifying round-trips to `ok true`, and an
equal-length signature whose decoded bytes differ from the recomputed
digest verifies to `ok false` (digest bytes are below 256, as HMAC-SHA256
output is). -/
theorem C8_signature_roundtrip (hmac : String → String → List Nat)
    (payload secret : String) (hb : ∀ b ∈ hmac secret payload, b < 256) :
    verifySignature hmac payload (generateSignature hmac payload secret) secret =
      Except.ok true ∧
    (∀ sig : String, (hexDecode sig).length = (hmac secret payload).length →
      hexDecode sig ≠ hmac secret payload →
      verifySignature hmac payload sig secret = Except.ok false) := by
  have hd := hexDecode_generateSignature hmac payload secret hb
  constructor
  · unfold verifySignature timingSafeEqual
    rw [hd]
    simp
  · intro sig hlen hne
    unfold verifySignature timingSafeEqual
    rw [hd, if_pos hlen, beq_eq_false_iff_ne.mpr hne]

/-- Witness for `C8_signature_roundtrip` with a concrete two-byte digest
function. -/
theorem C8_signature_roundtrip_witness :
    (∀ b ∈ tinyHmac "s" "p", b < 256) ∧
    verifySignature tinyHmac "p" (generateSignature tinyHmac "p" "s") "s" =
      Except.ok true :=
  ⟨by decide, (C8_signature_roundtrip tinyHmac "p" "s" (by decide)).1⟩

/-- Claim C9 (counterexample): `secondDueSub`, due and carrying an inactive
plan, is selected and left untouched by the cycle at time 10 — but at time
100 a third subscription has become due and the `limit(batchSize)` of the
discovery query (batch size 2) excludes `secondDueSub`, so it is not
selected by that subsequent cycle. -/
theorem C9_counterexample :
    secondDueSub ∈ findDueSubscriptions smallBatchCfg.batchSize 10 threeSubStore ∧
    (processSubscriptionPayment smallBatchCfg [inactivePlan] (fun _ => none) 10
        secondDueSub).sub = secondDueSub ∧
    (processDuePayments smallBatchCfg [inactivePlan] (fun _ _ => none) 10
        threeSubStore).store = threeSubStore ∧
    secondDueSub ∉ findDueSubscriptions smallBatchCfg.batchSize 100 threeSubStore := by
  decide

/-- Claim C9 (amended): when the plan is missing or inactive the processor
writes nothing — the stored row keeps every field — and the subscription
keeps matching the due filter of every later discovery; it is returned by a
subsequent cycle's query whenever it sits within the first `batchSize`
matching rows (the `limit(batchSize)` can defer it, see
`C9_counterexample`). -/
theorem C9_plan_inactive_frame (cfg : PaymentProcessorConfig) (plans : List Plan)
    (gateway : Nat → Option String) (now : Nat) (sub : Subscription)
    (h : ∀ p, findPlan plans sub.planId = some p → p.isActive = false)
    (hdue : isDue now sub = true) :
    (processSubscriptionPayment cfg plans gateway now sub).sub = sub ∧
    (∀ t, now ≤ t → isDue t sub = true) ∧
    (∀ (store : List Subscription) (t : Nat),
      sub ∈ store.filter (isDue t) →
      (store.filter (isDue t)).indexOf sub < cfg.batchSize →
      sub ∈ findDueSubscriptions cfg.batchSize t store) := by
  refine ⟨(processSubscriptionPayment_planBad cfg plans gateway now sub h).2.1, ?_, ?_⟩
  · intro t ht
    simp only [isDue, Bool.and_eq_true, beq_iff_eq, decide_eq_true_eq] at hdue ⊢
    exact ⟨hdue.1, Nat.le_trans hdue.2 ht⟩
  · intro store t hmem hidx
    exact mem_take_of_indexOf_lt hmem hidx

/-- Witness for `C9_plan_inactive_frame` at the second due subscription. -/
theorem C9_plan_inactive_frame_witness :
    isDue 10 secondDueSub = true ∧
    (processSubscriptionPayment smallBatchCfg [inactivePlan] (fun _ => none) 10
        secondDueSub).sub = secondDueSub ∧
    isDue 100 secondDueSub = true :=
  ⟨by decide,
    (C9_plan_inactive_frame smallBatchCfg [inactivePlan] (fun _ => none) 10
      secondDueSub (by decide) (by decide)).1,
    (C9_plan_inactive_frame smallBatchCfg [inactivePlan] (fun _ => none) 10
      secondDueSub (by decide) (by decide)).2.1 100 (by decide)⟩

/-- Claim C10: `verifySignature` returns a boolean exactly when the supplied
signature hex-decodes to the 32-byte digest length; any other decoded length
makes `timingSafeEqual` throw instead of returning `false`. -/
theorem C10_signature_length_guard (hmac : String → String → List Nat)
    (payload sig secret : String)
    (hb : ∀ b ∈ hmac secret payload, b < 256)
    (hlen : (hmac secret payload).length = 32) :
    ((hexDecode sig).length = 32 →
      verifySignature hmac payload sig secret =
        Except.ok (hexDecode sig == hmac secret payload)) ∧
    ((hexDecode sig).length ≠ 32 →
      verifySignature hmac payload sig secret =
        Except.error "Input buffers must have the same byte length") := by
  have hd := hexDecode_generateSignature hmac payload secret hb
  constructor
  · intro h
    unfold verifySignature timingSafeEqual
    rw [hd, hlen, if_pos h]
  · intro h
    unfold verifySignature timingSafeEqual
    rw [hd, hlen, if_neg h]

/-- Witness for `C10_signature_length_guard`: a signature decoding to a
single byte makes the comparison throw. -/
theorem C10_signature_length_guard_witness :
    (hexDecode "00").length ≠ 32 ∧
    verifySignature fullHmac "p" "00" "s" =
      Except.error "Input buffers must have the same byte length" :=
  ⟨by decide,
    (C10_signature_length_guard fullHmac "p" "00" "s" (by decide) (by decide)).2
      (by decide)⟩

end Circulum
